import Mathlib

/-!
Verification development for the choose-your-own-adventure backend.

The development shallowly embeds the Python backend:
- generation-contract pydantic models (src/backend/core/models.py),
- ORM rows (src/backend/models/story.py),
- story assembly and read endpoints (src/backend/routers/story.py),
- the job read endpoint (src/backend/routers/job.py),
- the background generation task (src/backend/routers/story.py).

Python/JSON data is modelled by the inductive `Json`; pydantic validation
is modelled by executable parse functions returning `Except`; the database
is modelled by a `Store` record of row lists, and every operation passes
the store explicitly.
-/

namespace CYOA

/-- Shallow model of a Python/JSON value, as handled by pydantic and by the
JSON columns of the ORM layer. Objects keep their fields as an ordered
association list. -/
inductive Json where
  | null
  | bool (b : Bool)
  | str (s : String)
  | num (n : Int)
  | arr (elems : List Json)
  | obj (fields : List (String × Json))

/-- Model of pydantic class StoryOptionLLM (src/backend/core/models.py lines
5-7). Field nextNode is declared Dict[str, Any]: validation only requires a
string-keyed object and keeps its fields untyped; it does NOT validate the
value as a StoryNodeLLM. -/
structure StoryOptionLLM where
  text : String
  nextNode : List (String × Json)

/-- Model of pydantic class StoryNodeLLM (src/backend/core/models.py lines
10-14). The options field has type Optional[List[StoryOptionLLM]]. No
validator relates isEnding to options. -/
structure StoryNodeLLM where
  content : String
  isEnding : Bool
  isWinningEnding : Bool
  options : Option (List StoryOptionLLM)

/-- Model of pydantic class StoryLLMResponse (src/backend/core/models.py
lines 16-18). -/
structure StoryLLMResponse where
  title : String
  rootNode : StoryNodeLLM

/-- Field lookup in a JSON object, as pydantic reads input keys. Unknown
extra keys are ignored by validation, so only lookups matter. -/
def getKey (fields : List (String × Json)) (k : String) : Option Json :=
  fields.lookup k

/-- Validation of one StoryOptionLLM value from a JSON value, modelling
pydantic parsing of src/backend/core/models.py lines 5-7. text must be a
string; nextNode must be an object (Dict[str, Any]) and its contents are
accepted untouched. Failure models a pydantic ValidationError, which the
spec names SchemaValidationError. -/
def parseStoryOptionLLM (j : Json) : Except String StoryOptionLLM :=
  match j with
  | Json.obj fields =>
    match getKey fields "text" with
    | some (Json.str t) =>
      match getKey fields "nextNode" with
      | some (Json.obj nf) => Except.ok { text := t, nextNode := nf }
      | some _ => Except.error "nextNode: value is not a valid dict"
      | none => Except.error "nextNode: field required"
    | some _ => Except.error "text: str type expected"
    | none => Except.error "text: field required"
  | _ => Except.error "StoryOptionLLM: value is not a valid dict"

/-- Validation of a list of option values, in order, failing on the first
invalid element, as pydantic validates List[StoryOptionLLM]. -/
def parseOptionList : List Json → Except String (List StoryOptionLLM)
  | [] => Except.ok []
  | j :: rest =>
    match parseStoryOptionLLM j with
    | Except.error e => Except.error e
    | Except.ok o =>
      match parseOptionList rest with
      | Except.error e => Except.error e
      | Except.ok os => Except.ok (o :: os)

/-- Validation of one StoryNodeLLM value from a JSON value, modelling
pydantic parsing of src/backend/core/models.py lines 10-14. content,
isEnding and isWinningEnding are required; options is Optional: an absent
key or an explicit null yields none, a JSON array is validated elementwise.
No cross-field check ties isEnding to options, and option next-nodes are
not validated as nodes (see parseStoryOptionLLM). -/
def parseStoryNodeLLM (j : Json) : Except String StoryNodeLLM :=
  match j with
  | Json.obj fields =>
    match getKey fields "content" with
    | some (Json.str c) =>
      match getKey fields "isEnding" with
      | some (Json.bool e) =>
        match getKey fields "isWinningEnding" with
        | some (Json.bool w) =>
          match getKey fields "options" with
          | none =>
            Except.ok { content := c, isEnding := e, isWinningEnding := w, options := none }
          | some Json.null =>
            Except.ok { content := c, isEnding := e, isWinningEnding := w, options := none }
          | some (Json.arr js) =>
            match parseOptionList js with
            | Except.error err => Except.error err
            | Except.ok os =>
              Except.ok { content := c, isEnding := e, isWinningEnding := w, options := some os }
          | some _ => Except.error "options: value is not a valid list"
        | some _ => Except.error "isWinningEnding: bool type expected"
        | none => Except.error "isWinningEnding: field required"
      | some _ => Except.error "isEnding: bool type expected"
      | none => Except.error "isEnding: field required"
    | some _ => Except.error "content: str type expected"
    | none => Except.error "content: field required"
  | _ => Except.error "StoryNodeLLM: value is not a valid dict"

/-- Validation of a whole StoryLLMResponse from a JSON value, modelling
pydantic parsing of src/backend/core/models.py lines 16-18. -/
def parseStoryLLMResponse (j : Json) : Except String StoryLLMResponse :=
  match j with
  | Json.obj fields =>
    match getKey fields "title" with
    | some (Json.str t) =>
      match getKey fields "rootNode" with
      | some r =>
        match parseStoryNodeLLM r with
        | Except.error e => Except.error e
        | Except.ok n => Except.ok { title := t, rootNode := n }
      | none => Except.error "rootNode: field required"
    | some _ => Except.error "title: str type expected"
    | none => Except.error "title: field required"
  | _ => Except.error "StoryLLMResponse: value is not a valid dict"

/-- JSON object literal for an option with given label text and nextNode
object fields. -/
def optionObj (t : String) (nf : List (String × Json)) : Json :=
  Json.obj [("text", Json.str t), ("nextNode", Json.obj nf)]

/-- JSON object literal for a node with given content, flags and options
value. -/
def nodeObj (c : String) (e w : Bool) (opts : Json) : Json :=
  Json.obj [("content", Json.str c), ("isEnding", Json.bool e),
            ("isWinningEnding", Json.bool w), ("options", opts)]

/-- One entry of the options JSON stored on a persisted node. Modelled from
the spec: the writer of this column (core/story_generator.py) is not under
src; section 3 and section 6 of the spec describe each stored option as a
pair of label text and target node identity. -/
structure StoryOption where
  text : String
  node_id : Nat
deriving DecidableEq

/-- Model of ORM class StoryNode (src/backend/models/story.py lines 18-29).
Column nullability follows the declarations: story_id is nullable=False
(line 22), so it is carried as an Option that admissible rows must fill;
content is Column(JSON, nullable=True) (line 23), so a stored row may have
content = none. The boolean columns carry defaults and options defaults to
an empty list. Note the model declares a column named is_winning (line 26)
and declares NO attribute named is_winning_ending. -/
structure StoryNode where
  id : Nat
  story_id : Option Nat
  content : Option String
  is_root : Bool
  is_ending : Bool
  is_winning : Bool
  options : List StoryOption
deriving DecidableEq

/-- The NOT NULL constraints declared on the story_nodes table in
src/backend/models/story.py lines 21-27: story_id is the only column
declared nullable=False; content is declared nullable=True, and no other
declaration constrains content. A row is accepted by the table exactly when
this check holds. -/
def storyNodeColumnsOK (n : StoryNode) : Bool :=
  n.story_id.isSome

/-- Model of ORM class Story (src/backend/models/story.py lines 8-16).
Timestamps are carried as natural numbers. -/
structure Story where
  id : Nat
  title : String
  session_id : String
  created_at : Nat
deriving DecidableEq

/-- Model of ORM class StoryJob. Modelled from the spec: models/job.py is
not under src; section 3 of the spec lists identity, owning session,
requested theme, status (pending, processing, completed or failed),
resulting story reference (set only on success), error detail (set only on
failure) and completion timestamp, matching the fields the routers under
src read and write. -/
structure StoryJob where
  job_id : String
  session_id : String
  theme : String
  status : String
  story_id : Option Nat
  error : Option String
  completed_at : Option Nat
deriving DecidableEq

/-- The relational store: one list of rows per table. Every embedded
operation takes the store explicitly and returns the store it leaves
behind, making reads and writes visible in the type. -/
structure Store where
  stories : List Story
  story_nodes : List StoryNode
  jobs : List StoryJob
deriving DecidableEq

/-- Python attribute access node.is_winning_ending on a loaded StoryNode
row, as performed by build_complete_story_tree (src/backend/routers/story.py
line 190). The ORM model src/backend/models/story.py defines a column named
is_winning (line 26) and no column or attribute named is_winning_ending, so
on a row freshly loaded by a query this lookup raises AttributeError; the
access is therefore modelled as returning none. -/
def StoryNode.attr_is_winning_ending (_ : StoryNode) : Option Bool :=
  none

/-- Client-facing node view. Modelled from the spec: schemas/story.py is
not under src; section 6 of the spec gives the node view shape id, content,
is_ending, is_winning, options, and the router under src constructs it
with exactly the keyword fields id, content, is_ending, is_winning_ending
and options (src/backend/routers/story.py lines 186-192). -/
structure CompleteStoryNodeResponse where
  id : Nat
  content : Option String
  is_ending : Bool
  is_winning_ending : Bool
  options : List StoryOption
deriving DecidableEq

/-- Client-facing story view. Modelled from the spec: schemas/story.py is
not under src; section 6 of the spec gives the shape id, title, session_id,
created_at, root_node and all_nodes as a mapping from node identity to node
view, and the router under src constructs exactly those fields
(src/backend/routers/story.py lines 199-206). The mapping is carried as an
insertion-ordered association list with overwriting insert, matching a
Python dict. -/
structure CompleteStoryResponse where
  id : Nat
  title : String
  session_id : String
  created_at : Nat
  root_node : CompleteStoryNodeResponse
  all_nodes : List (Nat × CompleteStoryNodeResponse)
deriving DecidableEq

/-- Exceptions raised by the embedded router code: Python AttributeError,
fastapi HTTPException with a status code and detail, and Python KeyError
on a dict lookup. -/
inductive PyError where
  | attributeError (attr : String)
  | httpException (status_code : Nat) (detail : String)
  | keyError (key : Nat)
deriving DecidableEq

/-- Insertion into a Python dict keyed by node identity: an existing key
keeps its position and gets the new value, a new key is appended. -/
def dictInsert (d : List (Nat × CompleteStoryNodeResponse)) (k : Nat)
    (v : CompleteStoryNodeResponse) : List (Nat × CompleteStoryNodeResponse) :=
  match d with
  | [] => [(k, v)]
  | (k0, v0) :: rest =>
    if k0 = k then (k0, v) :: rest else (k0, v0) :: dictInsert rest k v

/-- Construction of one CompleteStoryNodeResponse from a loaded row, as in
the loop of build_complete_story_tree (src/backend/routers/story.py lines
185-193). The is_winning_ending keyword is filled from the attribute access
node.is_winning_ending, which fails on every row because the ORM model
names the column is_winning (see StoryNode.attr_is_winning_ending). -/
def mkNodeResponse (node : StoryNode) : Except PyError CompleteStoryNodeResponse :=
  match node.attr_is_winning_ending with
  | none => Except.error (PyError.attributeError "is_winning_ending")
  | some w =>
    Except.ok { id := node.id, content := node.content, is_ending := node.is_ending,
                is_winning_ending := w, options := node.options }

/-- The node_dict loop of build_complete_story_tree
(src/backend/routers/story.py lines 184-193): rows are processed in query
order, each converted node view inserted under its id; the first raised
exception aborts the loop. -/
def buildNodeDict : List StoryNode → List (Nat × CompleteStoryNodeResponse) →
    Except PyError (List (Nat × CompleteStoryNodeResponse))
  | [], acc => Except.ok acc
  | n :: rest, acc =>
    match mkNodeResponse n with
    | Except.error e => Except.error e
    | Except.ok r => buildNodeDict rest (dictInsert acc n.id r)

/-- Model of build_complete_story_tree (src/backend/routers/story.py lines
163-206): query the story_nodes table filtered by story_id, build the node
dict, then scan for the first row with is_root set; if none is found raise
HTTPException 500 with detail Story root node not found; otherwise return
the assembled CompleteStoryResponse. The function only queries, so the
store component of the result is the input store. -/
def build_complete_story_tree (db : Store) (story : Story) :
    Except PyError CompleteStoryResponse × Store :=
  let nodes := db.story_nodes.filter (fun n => n.story_id == some story.id)
  let result : Except PyError CompleteStoryResponse :=
    match buildNodeDict nodes [] with
    | Except.error e => Except.error e
    | Except.ok node_dict =>
      match nodes.find? (fun n => n.is_root) with
      | none => Except.error (PyError.httpException 500 "Story root node not found")
      | some root =>
        match node_dict.lookup root.id with
        | none => Except.error (PyError.keyError root.id)
        | some rootResp =>
          Except.ok { id := story.id, title := story.title,
                      session_id := story.session_id, created_at := story.created_at,
                      root_node := rootResp, all_nodes := node_dict }
  (result, db)

/-- Model of the read endpoint get_complete_story
(src/backend/routers/story.py lines 136-160): look the story up by id,
raise HTTPException 404 with detail Story not found when absent, otherwise
delegate to build_complete_story_tree. -/
def get_complete_story (db : Store) (story_id : Nat) :
    Except PyError CompleteStoryResponse × Store :=
  match db.stories.find? (fun s => s.id == story_id) with
  | none => (Except.error (PyError.httpException 404 "Story not found"), db)
  | some story => build_complete_story_tree db story

/-- Model of the read endpoint get_job_status (src/backend/routers/job.py
lines 20-44): look the job up by job_id, raise HTTPException 404 with
detail Job not found when absent, otherwise return the row. -/
def get_job_status (db : Store) (job_id : String) : Except PyError StoryJob × Store :=
  match db.jobs.find? (fun j => j.job_id == job_id) with
  | none => (Except.error (PyError.httpException 404 "Job not found"), db)
  | some job => (Except.ok job, db)

/-- In-place mutation of the first job row matching a job_id followed by a
commit, as the background task mutates the object returned by
query(StoryJob).filter(StoryJob.job_id == job_id).first(). -/
def updateFirstJob : List StoryJob → String → (StoryJob → StoryJob) → List StoryJob
  | [], _, _ => []
  | j :: rest, jid, f =>
    if j.job_id == jid then f j :: rest else j :: updateFirstJob rest jid f

/-- Model of the background task generate_story_task
(src/backend/routers/story.py lines 95-133). The task opens its own
session on the shared store, looks the job up by job_id and returns the
store unchanged when the job is absent. Otherwise it commits status
processing, runs the generator, and commits exactly one terminal outcome:
story_id, status completed and completed_at on success, or status failed,
completed_at and the error message on failure. The generator
StoryGenerator.generate_story (core/story_generator.py, not under src) is
passed in as a function gen of the session_id and theme whose value is the
outcome of its single invocation; the inner except Exception block turns
any generator exception into the failure commit, so the task itself always
returns a store and never re-raises a generation-time exception. -/
def generate_story_task (db : Store) (job_id theme session_id : String)
    (gen : String → String → Except String Story) (now : Nat) : Store :=
  match db.jobs.find? (fun j => j.job_id == job_id) with
  | none => db
  | some _ =>
    let setProcessing : StoryJob → StoryJob := fun j => { j with status := "processing" }
    let db1 : Store := { db with jobs := updateFirstJob db.jobs job_id setProcessing }
    match gen session_id theme with
    | Except.ok story =>
      let setCompleted : StoryJob → StoryJob := fun j =>
        { j with story_id := some story.id, status := "completed", completed_at := some now }
      { db1 with jobs := updateFirstJob db1.jobs job_id setCompleted }
    | Except.error e =>
      let setFailed : StoryJob → StoryJob := fun j =>
        { j with status := "failed", completed_at := some now, error := some e }
      { db1 with jobs := updateFirstJob db1.jobs job_id setFailed }

mutual

/-- Modelled from the spec: the recursive NarrativeSchema tree of section
4.1, the input of TreeExpander, whose implementation
(core/story_generator.py) is not under src. A node holds content, the two
ending flags and an ordered option list; each option holds label text and a
full nested child node. -/
inductive SchemaNode where
  | mk (content : String) (isEnding : Bool) (isWinningEnding : Bool)
       (options : List SchemaOption)

/-- Modelled from the spec: one option of a NarrativeSchema node, section
4.1. -/
inductive SchemaOption where
  | mk (text : String) (nextNode : SchemaNode)

end

/-- Content field of a schema node. -/
def SchemaNode.content : SchemaNode → String
  | .mk c _ _ _ => c

/-- Ending flag of a schema node. -/
def SchemaNode.isEnding : SchemaNode → Bool
  | .mk _ e _ _ => e

/-- Winning flag of a schema node. -/
def SchemaNode.isWinningEnding : SchemaNode → Bool
  | .mk _ _ w _ => w

/-- Option list of a schema node. -/
def SchemaNode.options : SchemaNode → List SchemaOption
  | .mk _ _ _ os => os

mutual

/-- Modelled from the spec: TreeExpander.expand of section 4.2
(core/story_generator.py is not under src). The call persists one node row
with the fields of the schema node and an initially empty option list,
obtaining its identity (fresh identities are modelled by a counter); an
ending node keeps its options empty and triggers no recursion, its schema
options being ignored per the stated edge-case policy; otherwise each
schema option is expanded depth-first in order and the resolved child
identity appended to the option list written back onto the node. The
result is the created identity, the created rows and the next fresh
identity. -/
def expandNode (sid : Nat) (isRoot : Bool) : SchemaNode → Nat →
    Nat × List StoryNode × Nat
  | .mk c e w opts, fresh =>
    if e then
      (fresh,
       [{ id := fresh, story_id := some sid, content := some c, is_root := isRoot,
          is_ending := e, is_winning := w, options := [] }],
       fresh + 1)
    else
      let r := expandOptions sid opts (fresh + 1)
      (fresh,
       { id := fresh, story_id := some sid, content := some c, is_root := isRoot,
         is_ending := e, is_winning := w, options := r.1 } :: r.2.1,
       r.2.2)

/-- Modelled from the spec: depth-first expansion of an option list by
TreeExpander, section 4.2, collecting the resolved option entries and the
rows created for the subtrees. -/
def expandOptions (sid : Nat) : List SchemaOption → Nat →
    List StoryOption × List StoryNode × Nat
  | [], fresh => ([], [], fresh)
  | .mk t child :: rest, fresh =>
    let c := expandNode sid false child fresh
    let r := expandOptions sid rest c.2.2
    ({ text := t, node_id := c.1 } :: r.1, c.2.1 ++ r.2.1, r.2.2)

end

/-- Helper: find? after an in-place update of the first matching job row
returns the updated row, when the update keeps the job_id. -/
theorem find_updateFirstJob (jobs : List StoryJob) (jid : String)
    (f : StoryJob → StoryJob) (hf : ∀ j, (f j).job_id = j.job_id) :
    (updateFirstJob jobs jid f).find? (fun x => x.job_id == jid)
      = (jobs.find? (fun x => x.job_id == jid)).map f := by
  induction jobs with
  | nil => rfl
  | cons j rest ih =>
    by_cases h : j.job_id == jid
    · simp [updateFirstJob, h, List.find?_cons_of_pos, hf]
    · simp [updateFirstJob, h, List.find?_cons_of_neg, ih]

mutual

/-- Helper for claim C6: every row created by expandNode that carries the
ending flag has an empty option list. -/
theorem expandNode_ending_empty (sid : Nat) (isRoot : Bool) (s : SchemaNode) (fresh : Nat) :
    ∀ n ∈ (expandNode sid isRoot s fresh).2.1, n.is_ending = true → n.options = [] := by
  cases s with
  | mk c e w opts =>
    intro n hn he
    by_cases hE : e = true
    · simp [expandNode, hE] at hn
      subst hn
      rfl
    · simp only [Bool.not_eq_true] at hE
      simp [expandNode, hE] at hn
      rcases hn with hn | hn
      · subst hn
        simp [hE] at he
      · exact expandOptions_ending_empty sid opts (fresh + 1) n hn he

/-- Helper for claim C6: every row created by expandOptions that carries
the ending flag has an empty option list. -/
theorem expandOptions_ending_empty (sid : Nat) (os : List SchemaOption) (fresh : Nat) :
    ∀ n ∈ (expandOptions sid os fresh).2.1, n.is_ending = true → n.options = [] := by
  cases os with
  | nil =>
    intro n hn
    simp [expandOptions] at hn
  | cons o rest =>
    cases o with
    | mk t child =>
      intro n hn he
      simp [expandOptions] at hn
      rcases hn with hn | hn
      · exact expandNode_ending_empty sid false child fresh n hn he
      · exact expandOptions_ending_empty sid rest (expandNode sid false child fresh).2.2 n hn he

end

/-- C1: evaluation of assembly at the failing input. For a story whose node
set consists of one root node, build_complete_story_tree does not return
the client-facing view the claim describes: it raises AttributeError on
the access node.is_winning_ending (src/backend/routers/story.py line 190),
because the ORM model names the column is_winning
(src/backend/models/story.py line 26). -/
theorem claim1_assembly_attribute_error :
    (build_complete_story_tree
        { stories := [{ id := 1, title := "T", session_id := "s", created_at := 0 }],
          story_nodes := [{ id := 1, story_id := some 1, content := some "C",
                            is_root := true, is_ending := true, is_winning := true,
                            options := [] }],
          jobs := [] }
        { id := 1, title := "T", session_id := "s", created_at := 0 }).1
      = Except.error (PyError.attributeError "is_winning_ending") := rfl

/-- C2 counterexample: a story whose node set contains two root-flagged
nodes. The claim states assembly fails with the root-not-found server
fault there; instead the loop that builds node views raises AttributeError
before the root scan, and the HTTP 500 root error is not raised. -/
theorem claim2_counterexample :
    ((build_complete_story_tree
        { stories := [{ id := 1, title := "T", session_id := "s", created_at := 0 }],
          story_nodes := [{ id := 1, story_id := some 1, content := some "A",
                            is_root := true, is_ending := false, is_winning := false,
                            options := [{ text := "go", node_id := 2 }] },
                          { id := 2, story_id := some 1, content := some "B",
                            is_root := true, is_ending := true, is_winning := true,
                            options := [] }],
          jobs := [] }
        { id := 1, title := "T", session_id := "s", created_at := 0 }).1
      = Except.error (PyError.attributeError "is_winning_ending"))
    ∧ (build_complete_story_tree
        { stories := [{ id := 1, title := "T", session_id := "s", created_at := 0 }],
          story_nodes := [{ id := 1, story_id := some 1, content := some "A",
                            is_root := true, is_ending := false, is_winning := false,
                            options := [{ text := "go", node_id := 2 }] },
                          { id := 2, story_id := some 1, content := some "B",
                            is_root := true, is_ending := true, is_winning := true,
                            options := [] }],
          jobs := [] }
        { id := 1, title := "T", session_id := "s", created_at := 0 }).1
      ≠ Except.error (PyError.httpException 500 "Story root node not found") := by
  refine ⟨rfl, fun hcontra => ?_⟩
  exact PyError.noConfusion (Except.error.inj hcontra)

/-- C2 amended: assembly raises the server-side root-not-found fault, HTTP
500 with detail Story root node not found, exactly when the loaded node set
for the story is empty; on any non-empty node set the node-view loop fails
first with AttributeError, so assembly neither succeeds for a unique root
nor raises the root fault for zero or several roots among loaded nodes. -/
theorem claim2_root_error_iff_no_nodes (db : Store) (story : Story) :
    ((build_complete_story_tree db story).1
      = Except.error (PyError.httpException 500 "Story root node not found"))
    ↔ db.story_nodes.filter (fun n => n.story_id == some story.id) = [] := by
  unfold build_complete_story_tree
  cases h : db.story_nodes.filter (fun n => n.story_id == some story.id) with
  | nil => simp [h, buildNodeDict]
  | cons n rest =>
    simp [h, buildNodeDict, mkNodeResponse, StoryNode.attr_is_winning_ending]

/-- C3 counterexample: validation accepts a node whose only option embeds
the empty JSON object as its next node, although that object is itself
rejected by node validation; the accepted value is therefore not a tree in
which every next-node is a complete nested node of the same recursive
shape. -/
theorem claim3_counterexample :
    (parseStoryNodeLLM (nodeObj "A" false false (Json.arr [optionObj "go" []]))
      = Except.ok { content := "A", isEnding := false, isWinningEnding := false,
                    options := some [{ text := "go", nextNode := [] }] })
    ∧ parseStoryNodeLLM (Json.obj []) = Except.error "content: field required" :=
  ⟨rfl, rfl⟩

/-- C3 amended: validation types each level it explicitly parses, but an
option accepts ANY string-keyed JSON object as its nextNode (the pydantic
field is Dict[str, Any]); embedded next-nodes are not validated as nodes,
so the result is either a value typed only at the visited level or a
validation failure. -/
theorem claim3_next_node_not_validated (t : String) (nf : List (String × Json)) :
    parseStoryOptionLLM (optionObj t nf) = Except.ok { text := t, nextNode := nf } := rfl

/-- C4 counterexample: a node with isEnding true and a present, non-empty
option list is accepted by validation. -/
theorem claim4_counterexample :
    parseStoryNodeLLM (nodeObj "C" true true (Json.arr [optionObj "go" []]))
      = Except.ok { content := "C", isEnding := true, isWinningEnding := true,
                    options := some [{ text := "go", nextNode := [] }] } := rfl

/-- C4 amended: validation imposes no relation between isEnding and
options; a node whose fields are individually well-typed is accepted with
any combination of ending flag and non-empty option list. -/
theorem claim4_ending_options_unrelated (c t : String) (e w : Bool)
    (nf : List (String × Json)) :
    parseStoryNodeLLM (nodeObj c e w (Json.arr [optionObj t nf]))
      = Except.ok { content := c, isEnding := e, isWinningEnding := w,
                    options := some [{ text := t, nextNode := nf }] } := rfl

/-- C5 counterexample: a row with content = none satisfies every column
constraint declared on the story_nodes table, so a node can be stored with
its narrative content absent. -/
theorem claim5_counterexample :
    (storyNodeColumnsOK { id := 1, story_id := some 1, content := none, is_root := true,
                          is_ending := true, is_winning := false, options := [] } = true)
    ∧ ({ id := 1, story_id := some 1, content := none, is_root := true,
         is_ending := true, is_winning := false, options := [] } : StoryNode).content
        = none :=
  ⟨rfl, rfl⟩

/-- C5 amended: the content column is declared nullable=True
(src/backend/models/story.py line 23), so the declared constraints accept a
StoryNode row with any content value, including none; only story_id is
required non-null. -/
theorem claim5_content_nullable (i sid : Nat) (c : Option String) (r e w : Bool)
    (os : List StoryOption) :
    storyNodeColumnsOK { id := i, story_id := some sid, content := c, is_root := r,
                         is_ending := e, is_winning := w, options := os } = true := rfl

/-- C6 counterexample: expanding a schema node that is not an ending and
has no options persists a node with an empty option list and is_ending
false, refuting the direction options empty implies is_ending of the
claimed equivalence. -/
theorem claim6_counterexample :
    (expandNode 1 true (SchemaNode.mk "C" false false []) 1).2.1
      = [{ id := 1, story_id := some 1, content := some "C", is_root := true,
           is_ending := false, is_winning := false, options := [] }] := rfl

/-- C6 amended: for every story persisted by expansion, one direction of
ending consistency holds: every node whose is_ending flag is true has an
empty option list (schema options on an ending node are dropped). The
converse direction fails, per the counterexample. -/
theorem claim6_ending_nodes_have_no_options (sid : Nat) (isRoot : Bool)
    (s : SchemaNode) (fresh : Nat) (n : StoryNode)
    (hn : n ∈ (expandNode sid isRoot s fresh).2.1) (he : n.is_ending = true) :
    n.options = [] :=
  expandNode_ending_empty sid isRoot s fresh n hn he

/-- C6 witness: the amended theorem applied to the expansion of a concrete
one-node ending schema. -/
theorem claim6_witness :
    ({ id := 1, story_id := some 1, content := some "C", is_root := true,
       is_ending := true, is_winning := true, options := [] } : StoryNode).options = [] :=
  claim6_ending_nodes_have_no_options 1 true (SchemaNode.mk "C" true true []) 1
    { id := 1, story_id := some 1, content := some "C", is_root := true,
      is_ending := true, is_winning := true, options := [] }
    (by simp [expandNode]) rfl

/-- C7: when the job row exists, the background task records exactly one
terminal outcome onto it: on generator success the story identity, status
completed and the completion timestamp; on generator failure status
failed, the error message and the completion timestamp. The task is a
total function into stores, so no generation-time exception escapes it:
the inner except block converts every generator exception into the failure
commit. -/
theorem claim7_job_terminal_outcome (db : Store) (jid theme sid : String)
    (gen : String → String → Except String Story) (now : Nat) (j : StoryJob)
    (h : db.jobs.find? (fun x => x.job_id == jid) = some j) :
    (∀ story, gen sid theme = Except.ok story →
      (generate_story_task db jid theme sid gen now).jobs.find? (fun x => x.job_id == jid)
        = some { j with story_id := some story.id, status := "completed",
                        completed_at := some now })
    ∧ (∀ e, gen sid theme = Except.error e →
      (generate_story_task db jid theme sid gen now).jobs.find? (fun x => x.job_id == jid)
        = some { j with status := "failed", completed_at := some now,
                        error := some e }) := by
  constructor
  · intro story hg
    unfold generate_story_task
    rw [h, hg]
    rw [find_updateFirstJob _ jid
        (fun x => { x with story_id := some story.id, status := "completed",
                           completed_at := some now }) (fun x => rfl)]
    rw [find_updateFirstJob _ jid (fun x => { x with status := "processing" }) (fun x => rfl)]
    rw [h]
    rfl
  · intro e hg
    unfold generate_story_task
    rw [h, hg]
    rw [find_updateFirstJob _ jid
        (fun x => { x with status := "failed", completed_at := some now,
                           error := some e }) (fun x => rfl)]
    rw [find_updateFirstJob _ jid (fun x => { x with status := "processing" }) (fun x => rfl)]
    rw [h]
    rfl

/-- C7 witness: the terminal-outcome theorem applied to a one-job store and
a generator that succeeds with a concrete story. -/
theorem claim7_witness :
    (generate_story_task
        { stories := [], story_nodes := [],
          jobs := [{ job_id := "j", session_id := "s", theme := "t", status := "pending",
                     story_id := none, error := none, completed_at := none }] }
        "j" "t" "s" (fun _ _ => Except.ok { id := 7, title := "T", session_id := "s",
                                            created_at := 0 }) 5).jobs.find?
        (fun x => x.job_id == "j")
      = some { job_id := "j", session_id := "s", theme := "t", status := "completed",
               story_id := some 7, error := none, completed_at := some 5 } :=
  (claim7_job_terminal_outcome
      { stories := [], story_nodes := [],
        jobs := [{ job_id := "j", session_id := "s", theme := "t", status := "pending",
                   story_id := none, error := none, completed_at := none }] }
      "j" "t" "s" (fun _ _ => Except.ok { id := 7, title := "T", session_id := "s",
                                          created_at := 0 }) 5
      { job_id := "j", session_id := "s", theme := "t", status := "pending",
        story_id := none, error := none, completed_at := none } rfl).1
    { id := 7, title := "T", session_id := "s", created_at := 0 } rfl

/-- C8: reading an absent identity is a client-correctable not-found
condition and performs no state change: get_job_status on a job_id with no
row raises HTTPException 404 Job not found, get_complete_story on a
story_id with no row raises HTTPException 404 Story not found, and both
return the store unchanged. -/
theorem claim8_not_found_reads (db : Store) (jid : String) (sid : Nat)
    (hj : db.jobs.find? (fun j => j.job_id == jid) = none)
    (hs : db.stories.find? (fun s => s.id == sid) = none) :
    get_job_status db jid = (Except.error (PyError.httpException 404 "Job not found"), db)
    ∧ get_complete_story db sid
        = (Except.error (PyError.httpException 404 "Story not found"), db) := by
  constructor
  · unfold get_job_status
    rw [hj]
  · unfold get_complete_story
    rw [hs]

/-- C8 witness: the not-found theorem applied to the empty store. -/
theorem claim8_witness :
    get_job_status { stories := [], story_nodes := [], jobs := [] } "j"
      = (Except.error (PyError.httpException 404 "Job not found"),
         { stories := [], story_nodes := [], jobs := [] })
    ∧ get_complete_story { stories := [], story_nodes := [], jobs := [] } 1
      = (Except.error (PyError.httpException 404 "Story not found"),
         { stories := [], story_nodes := [], jobs := [] }) :=
  claim8_not_found_reads { stories := [], story_nodes := [], jobs := [] } "j" 1 rfl rfl

/-- C9: assembly is a mutation-free, idempotent read: it returns the store
it was given unchanged, and a second call on that returned store yields
the same outcome as the first, so whenever views are produced they are
structurally identical. -/
theorem claim9_assembly_pure_idempotent (db : Store) (story : Story) :
    ((build_complete_story_tree db story).2 = db)
    ∧ (build_complete_story_tree (build_complete_story_tree db story).2 story).1
        = (build_complete_story_tree db story).1 :=
  ⟨rfl, rfl⟩

/-- C10: invoking the background task with a job_id that has no row leaves
the store unchanged for every generator, so the task returns immediately,
invokes no generator and writes no row. -/
theorem claim10_missing_job_noop (db : Store) (job_id theme session_id : String)
    (gen : String → String → Except String Story) (now : Nat)
    (h : db.jobs.find? (fun j => j.job_id == job_id) = none) :
    generate_story_task db job_id theme session_id gen now = db := by
  unfold generate_story_task
  rw [h]

/-- C10 witness: the no-op theorem applied to the empty store and an
always-failing generator. -/
theorem claim10_witness :
    generate_story_task { stories := [], story_nodes := [], jobs := [] } "j" "t" "s"
        (fun _ _ => Except.error "boom") 5
      = { stories := [], story_nodes := [], jobs := [] } :=
  claim10_missing_job_noop { stories := [], story_nodes := [], jobs := [] } "j" "t" "s"
    (fun _ _ => Except.error "boom") 5 rfl

end CYOA
